import Mathlib

/-!
Shallow embedding of the OpenPubkey client core (package `client` of the
repository) and proofs about it.

The embedding covers:
  * the JWT payload model and `ExtractClaim` (src/unnamed/part_001),
  * the `aud` handling of `OidcClaims.UnmarshalJSON` (src/unnamed/part_001),
  * the `VerifyPKToken` pipeline (src/unnamed/part_001),
  * `DiscoverPublicKey` (src/unnamed/part_001),
  * the `OpkClient` constructor `New`, `Auth` and `OidcAuth`
    (src/client/client.go).

Byte-level concerns (base64url, exact JSON text) are abstracted: a JWT
segment is represented by its parsed JSON value, and calls into packages
that are not part of the analysed sources (jwx, memguard, pktoken, gq,
verifier) are represented by outcome oracles carried in an environment
record, except where the spec is the authority (such definitions carry a
`Modelled from the spec:` doc comment).
-/

namespace OpenPubkey

/-- JSON values, as produced by decoding a JWT segment into a dynamic map
(Go `map[string]any` after `json.Unmarshal`). -/
inductive Json where
  | str : String → Json
  | num : Int → Json
  | bool : Bool → Json
  | null : Json
  | arr : List Json → Json
  | obj : List (String × Json) → Json
deriving Repr

/-- Lookup of a claim in a decoded JWT payload (Go map indexing
`payload[claimName]`). -/
def lookupClaim (payload : List (String × Json)) (name : String) : Option Json :=
  match payload with
  | [] => none
  | (k, v) :: rest => if k = name then some v else lookupClaim rest name

/-- Embedding of `ExtractClaim` (src/unnamed/part_001 lines 201-224).
The compact token has already been split and its payload segment decoded;
`payload` is the resulting dynamic map. The Go code looks the claim up in
the map and then performs the type assertion `claim.(string)`, with no
special case for any claim name. -/
def ExtractClaim (payload : List (String × Json)) (claimName : String) :
    Except String String :=
  match lookupClaim payload claimName with
  | none => Except.error ("claim " ++ claimName ++ " missing from payload")
  | some claim =>
    match claim with
    | Json.str s => Except.ok s
    | _ => Except.error ("expected claim " ++ claimName ++ " to be a string")

/-- One iteration of the `aud`-array loop of `OidcClaims.UnmarshalJSON`:
the Go type assertion `v.(string)` panics on a non-string element,
modelled as an error. -/
def audAppendStep (acc : Except String (List String)) (v : Json) :
    Except String (List String) :=
  match acc, v with
  | Except.ok xs, Json.str s => Except.ok (xs ++ [s])
  | Except.ok _, _ => Except.error "interface conversion panic"
  | Except.error e, _ => Except.error e

/-- Embedding of the `aud` handling in `OidcClaims.UnmarshalJSON`
(src/unnamed/part_001 lines 40-68): the `aud` value is taken as a string,
or as an array whose elements are asserted to be strings and joined with
commas; any other shape (including a missing `aud`) yields the empty
string. -/
def oidcUnmarshalAudience (aud : Option Json) : Except String String :=
  match aud with
  | some (Json.str t) => Except.ok t
  | some (Json.arr l) =>
    (l.foldl audAppendStep (Except.ok [])).map (String.intercalate ",")
  | _ => Except.ok ""

/-- Public keys as returned by an `OpenIdProvider.PublicKey` call: either an
RSA key (the Go type assertion `pubKey.(*rsa.PublicKey)` succeeds) or some
other key type. -/
inductive PubKey where
  | rsa (n e : Nat) : PubKey
  | nonRsa (tag : String) : PubKey
deriving Repr, DecidableEq

/-- A base64url JWT segment, abstracted to an opaque handle. -/
abbrev Seg := Nat

/-- The compact JWS view of the OP section of a PK Token, as returned by
`pkt.Compact(pkt.Op)`; its payload segment is carried in decoded form. -/
structure Idt where
  id : Nat
  payload : List (String × Json)

/-- Client instance claims as returned by `pkt.GetCicValues()`; only the
outcome of `cic.Hash()` is relevant to the verification pipeline. -/
structure Cic where
  hashResult : Except String String

/-- JWS protected headers recovered from the signature blob of a GQ token
(`jws.NewHeaders()` populated by `parseJWTSegment`). -/
structure OrigHeaders where
  alg : String
  kid : String

/-- Outcomes of the `pktoken.PKToken` methods used by `VerifyPKToken`;
the `pktoken` package is outside the analysed sources, so each method is
an oracle recording its result on this token. -/
structure PKTokenM where
  getCicValues : Except String Cic
  compactOp : Except String Idt
  providerAlgorithm : Option String
  verifyGQSig : Nat → Nat → Except String Unit
  verifyCicSig : Except String Unit
  hasCos : Bool
  verifyCosignerSignature : Except String Unit

/-- Embedding of the `client.OpenIdProvider` interface of
src/unnamed/part_001 (lines 70-77), restricted to the methods
`VerifyPKToken` calls. -/
structure ProviderM where
  issuer : String
  publicKey : OrigHeaders → Except String PubKey
  verifyCICHash : Idt → String → Except String Unit
  verifyNonGQSig : Idt → String → Except String Unit

/-- Oracles for the `gq` and `util` library functions `VerifyPKToken`
calls (`gq.OriginalJWTHeaders`, `parseJWTSegment` into fresh headers). -/
structure VerifyEnv where
  origJWTHeaders : Idt → Except String Seg
  parseHeadersSegment : Seg → Except String OrigHeaders

/-- The `switch alg` of `VerifyPKToken` (src/unnamed/part_001 lines
109-155): it has cases for `gq.GQ256` and `jwa.RS256` and no default
clause, which the final `Except.ok ()` branch mirrors. -/
def verifyOpSignature (env : VerifyEnv) (pkt : PKTokenM) (provider : ProviderM)
    (idt : Idt) (commitment : String) (alg : String) : Except String Unit :=
  if alg = "GQ256" then
    match env.origJWTHeaders idt with
    | Except.error e => Except.error e
    | Except.ok origHeadersB64 =>
      match env.parseHeadersSegment origHeadersB64 with
      | Except.error e => Except.error e
      | Except.ok origHeaders =>
        if origHeaders.alg ≠ "RS256" then
          Except.error ("expected original headers to contain RS256 alg, got "
            ++ origHeaders.alg)
        else
          match provider.publicKey origHeaders with
          | Except.error e =>
            Except.error ("failed to get OP public key: " ++ e)
          | Except.ok (PubKey.nonRsa _) =>
            Except.error "expected public key to be a rsa.PublicKey"
          | Except.ok (PubKey.rsa n e) =>
            match pkt.verifyGQSig n e with
            | Except.error e2 =>
              Except.error ("error verifying OP GQ signature on PK Token: " ++ e2)
            | Except.ok _ =>
              match provider.verifyCICHash idt commitment with
              | Except.error e2 =>
                Except.error ("failed to verify CIC hash: " ++ e2)
              | Except.ok _ => Except.ok ()
  else if alg = "RS256" then
    match provider.verifyNonGQSig idt commitment with
    | Except.error e =>
      Except.error ("failed to verify signature from OIDC provider: " ++ e)
    | Except.ok _ => Except.ok ()
  else Except.ok ()

/-- The tail of `VerifyPKToken` after the `switch` (src/unnamed/part_001
lines 157-168): verify the CIC signature, and the cosigner signature when
a cosigner section is present. -/
def verifyTail (pkt : PKTokenM) : Except String Unit :=
  match pkt.verifyCicSig with
  | Except.error e =>
    Except.error ("error verifying CIC signature on PK Token: " ++ e)
  | Except.ok _ =>
    if pkt.hasCos then
      match pkt.verifyCosignerSignature with
      | Except.error e =>
        Except.error ("error verify cosigner signature on PK Token: " ++ e)
      | Except.ok _ => Except.ok ()
    else Except.ok ()

/-- Embedding of `VerifyPKToken` (src/unnamed/part_001 lines 79-169).
The Go `switch alg` has cases for `gq.GQ256` and `jwa.RS256` and no
default clause, which the final `Except.ok ()` arm of
`verifyOpSignature` mirrors. -/
def VerifyPKToken (env : VerifyEnv) (pkt : PKTokenM) (provider : ProviderM) :
    Except String Unit :=
  match pkt.getCicValues with
  | Except.error e => Except.error e
  | Except.ok cic =>
    match cic.hashResult with
    | Except.error e => Except.error e
    | Except.ok commitment =>
      match pkt.compactOp with
      | Except.error e => Except.error e
      | Except.ok idt =>
        match ExtractClaim idt.payload "iss" with
        | Except.error e => Except.error e
        | Except.ok issuer =>
          if issuer ≠ provider.issuer then
            Except.error ("expected token to have issuer " ++ provider.issuer
              ++ ", got " ++ issuer)
          else
            match pkt.providerAlgorithm with
            | none => Except.error "provider algorithm type missing"
            | some alg =>
              match verifyOpSignature env pkt provider idt commitment alg with
              | Except.error e => Except.error e
              | Except.ok _ => verifyTail pkt

/-- A JWK entry of a fetched JWKS: its key id, its `alg` field, and the
outcome of decoding its material into an `rsa.PublicKey` via `key.Raw`
(`some (n, e)` on success, `none` when the material is not RSA). -/
structure Jwk where
  kid : String
  alg : String
  rawRsa : Option (Nat × Nat)

/-- First JWK whose key id matches, as `jwks.LookupKeyID(kid)` returns. -/
def lookupKeyID (jwks : List Jwk) (kid : String) : Option Jwk :=
  match jwks with
  | [] => none
  | k :: rest => if k.kid = kid then some k else lookupKeyID rest kid

/-- The OIDC discovery document, reduced to the field used. -/
structure DiscConf where
  jwksURI : String

/-- Oracles for the network calls of `DiscoverPublicKey`
(`oidcclient.Discover` and `jwk.Fetch`, both outside the sources). -/
structure DiscoverEnv where
  discover : String → Except String DiscConf
  fetchJwks : String → Except String (List Jwk)

/-- Embedding of `DiscoverPublicKey` (src/unnamed/part_001 lines 171-199):
discover the issuer configuration, fetch its JWKS, look the key id up,
require `alg = RS256`, and decode the RSA key material. -/
def DiscoverPublicKey (env : DiscoverEnv) (headers : OrigHeaders)
    (issuer : String) : Except String PubKey :=
  match env.discover issuer with
  | Except.error e =>
    Except.error ("failed to call OIDC discovery endpoint: " ++ e)
  | Except.ok discConf =>
  match env.fetchJwks discConf.jwksURI with
  | Except.error e => Except.error ("failed to fetch to JWKS: " ++ e)
  | Except.ok jwks =>
  match lookupKeyID jwks headers.kid with
  | none => Except.error ("key " ++ headers.kid ++ " is not in JWKS")
  | some key =>
    if key.alg ≠ "RS256" then
      Except.error ("expected alg to be RS256 in JWK with kid " ++ headers.kid
        ++ " for OP " ++ issuer ++ ", got " ++ key.alg)
    else
      match key.rawRsa with
      | none => Except.error "failed to decode public key"
      | some (n, e) => Except.ok (PubKey.rsa n e)

/-- The cosigner provider, reduced to the field `client.New` reads. -/
structure CosignerProvider where
  issuer : String

/-- Verifier values distinguishable by construction: the provider-only
verifier `verifier.New(providerVerifier)`, the cosigner-aware verifier
`verifier.New(providerVerifier, WithCosignerVerifiers(...))`, and a
caller-supplied custom verifier. -/
inductive Verifier where
  | providerOnly (issuer commitmentClaim : String) : Verifier
  | withCosigner (issuer commitmentClaim cosIssuer : String) : Verifier
  | custom (id : Nat) : Verifier
deriving Repr, DecidableEq

/-- The `client.OpenIdProvider` data `New` reads (src/client/client.go
lines 40-46): issuer and commitment-claim name. -/
structure OpInfo where
  issuer : String
  commitmentClaim : String

/-- The `OpkClient` struct (src/client/client.go lines 57-64); the signer
is an opaque key handle. -/
structure OpkClient where
  op : OpInfo
  cosP : Option CosignerProvider
  signer : Option Nat
  alg : Option String
  signGQ : Bool
  verifier : Option Verifier

/-- The exported `ClientOpts` constructors of src/client/client.go
(lines 77-106). `WithSigner` stores both the signer and the algorithm;
a Go caller may pass nil for either, so both are options. -/
inductive ClientOpt where
  | withSigner (signer : Option Nat) (alg : Option String)
  | withSignGQ (b : Bool)
  | withCosignerProvider (cosP : Option CosignerProvider)
  | withCustomVerifier (v : Verifier)

/-- Application of one `ClientOpts` closure to the client under
construction. -/
def applyOpt (c : OpkClient) : ClientOpt → OpkClient
  | ClientOpt.withSigner s a => { c with signer := s, alg := a }
  | ClientOpt.withSignGQ b => { c with signGQ := b }
  | ClientOpt.withCosignerProvider p => { c with cosP := p }
  | ClientOpt.withCustomVerifier v => { c with verifier := some v }

/-- Lines 139-147 of src/client/client.go, verbatim control flow: build
the provider verifier; when a cosigner provider is set, assign the
cosigner-aware verifier; then assign `verifier.New(providerVerifier)`
unconditionally (this second assignment is not guarded) and return. -/
def setVerifierAndReturn (op : OpInfo) (client : OpkClient) : OpkClient :=
  let client1 :=
    match client.cosP with
    | some cp =>
      let v := Verifier.withCosigner op.issuer op.commitmentClaim cp.issuer
      { client with verifier := some v }
    | none => client
  { client1 with verifier := some (Verifier.providerOnly op.issuer op.commitmentClaim) }

/-- Embedding of `client.New` (src/client/client.go lines 110-148).
`genKeyPair` is the oracle for `util.GenKeyPair`. -/
def New (op : OpInfo) (genKeyPair : String → Except String Nat)
    (opts : List ClientOpt) : Except String OpkClient :=
  let client : OpkClient :=
    { op := op, cosP := none, signer := none, alg := none,
      signGQ := false, verifier := none }
  let client := opts.foldl applyOpt client
  if client.alg = none ∧ client.signer ≠ none then
    Except.error "signer specified but alg is nil, must specify alg of signer"
  else
    match client.signer with
    | some _ => Except.ok (setVerifierAndReturn op client)
    | none =>
      let alg := client.alg.getD "ES256"
      match genKeyPair alg with
      | Except.error e =>
        Except.error ("failed to create key pair for client: " ++ e)
      | Except.ok s =>
        Except.ok (setVerifierAndReturn op
          { client with alg := some alg, signer := some s })

mutual
/-- Boolean equality of JSON values (byte equality of the encoded
segments, at the level of the parsed representation). -/
def jsonBEq : Json → Json → Bool
  | Json.str a, Json.str b => a = b
  | Json.num a, Json.num b => a = b
  | Json.bool a, Json.bool b => a = b
  | Json.null, Json.null => true
  | Json.arr a, Json.arr b => jsonListBEq a b
  | Json.obj a, Json.obj b => jsonObjBEq a b
  | _, _ => false

def jsonListBEq : List Json → List Json → Bool
  | [], [] => true
  | x :: xs, y :: ys => jsonBEq x y && jsonListBEq xs ys
  | _, _ => false

def jsonObjBEq : List (String × Json) → List (String × Json) → Bool
  | [], [] => true
  | (k1, v1) :: xs, (k2, v2) :: ys => k1 = k2 && jsonBEq v1 v2 && jsonObjBEq xs ys
  | _, _ => false
end

/-- The signature section of a JWT: either raw RSA signature bytes, or a
GQ blob holding the preserved original header together with the proof. -/
inductive SigVal where
  | rsa (sigBytes : Nat) : SigVal
  | gq (origAlg : String) (origKid : String) (proof : Nat) : SigVal
deriving Repr, DecidableEq

/-- A compact JWT (such as the ID token returned by `RequestTokens`),
with its protected header fields and payload in decoded form. -/
structure Jwt where
  alg : String
  kid : String
  payload : List (String × Json)
  sig : SigVal

/-- Modelled from the spec: `gq.SignerVerifier.SignJWT` lives in the `gq`
package, which is not among the analysed sources. Per spec section 4.3
the output is a compact JWT with identical payload whose header `alg` is
rewritten to GQ256 and whose signature section encodes the GQ proof
together with the original base64url header. -/
def gqSignJWT (proof : Nat) (jwt : Jwt) : Jwt :=
  { jwt with alg := "GQ256", sig := SigVal.gq jwt.alg jwt.kid proof }

/-- The compact JWS produced by `cic.Sign`: CIC protected header
(opaque handle), payload, signature. -/
structure CicJws where
  hdrId : Nat
  payload : List (String × Json)
  sig : Nat

/-- A PK Token as stored by `pktoken.New`: OP header, shared payload, OP
signature, CIC header and signature, and the optional `jkt` header value
added later by `AddJKTHeader`. -/
structure PKToken where
  opAlg : String
  opKid : String
  payload : List (String × Json)
  opSig : SigVal
  cicHdrId : Nat
  cicSig : Nat
  jkt : Option Nat

/-- Modelled from the spec: `pktoken.New` lives in the `pktoken` package,
which is not among the analysed sources. Per spec section 4.4 it splits
the ID token and the CIC compact JWS, asserts that their payload sections
are byte-equal, and stores the five components. -/
def pktokenNew (idt : Jwt) (cicToken : CicJws) : Except String PKToken :=
  if jsonObjBEq idt.payload cicToken.payload then
    Except.ok
      { opAlg := idt.alg, opKid := idt.kid, payload := idt.payload,
        opSig := idt.sig, cicHdrId := cicToken.hdrId,
        cicSig := cicToken.sig, jkt := none }
  else Except.error "payload in the ID token does not match payload in the CIC"

/-- Embedding of the anonymous-struct unmarshal of the issuer claim in
`OidcAuth` (src/client/client.go lines 258-263): a missing `iss` leaves
the empty string, a non-string `iss` is a `json.Unmarshal` error. -/
def unmarshalIss (payload : List (String × Json)) : Except String String :=
  match lookupClaim payload "iss" with
  | none => Except.ok ""
  | some (Json.str s) => Except.ok s
  | some _ => Except.error "json: cannot unmarshal value into field iss"

/-- Extra verifier checks (`verifier.Check`); the client only ever adds
`verifier.GQOnly()`. -/
inductive Check where
  | gqOnly
deriving Repr, DecidableEq

/-- Oracles for the library calls of `OidcAuth` that are outside the
analysed sources (jwx, clientinstance, gq construction, the `verifier`
package and the `pktoken` methods). -/
structure OidcEnv where
  publicKeyOf : Except String Unit
  setAlg : Except String Unit
  newClaims : Except String Cic
  requestTokens : String → Except String Jwt
  cicSign : Jwt → Except String CicJws
  jwsParse : Jwt → Except String Unit
  discoverKey : String → String → Except String PubKey
  gqNewSV : Except String Unit
  gqSign : Jwt → Except String Nat
  addJKT : PubKey → Except String Nat
  verify : PKToken → List Check → Except String Unit

/-- Observable outcome of one `OidcAuth` run: the returned value, whether
`RequestTokens` was invoked, which zeroizing buffers were allocated
(buffer 0 is the one `RequestTokens` returns, buffer 1 the one
`memguard.NewBufferFromBytes(gqToken)` creates), which were destroyed by
the time the function returned, and the value of the `verifierChecks`
local at exit. -/
structure OidcOut where
  result : Except String PKToken
  requestedTokens : Bool
  allocated : List Nat
  destroyed : List Nat
  checksUsed : List Check

/-- Exit from `OidcAuth`. The single `defer idToken.Destroy()` statement
(src/client/client.go line 245) evaluated its receiver when the defer was
registered, so the deferred call destroys buffer 0 and only buffer 0,
whenever that buffer was allocated; the reassignment of the `idToken`
variable on line 287 does not change the deferred receiver. -/
def mkOut (result : Except String PKToken) (requested : Bool)
    (allocated : List Nat) (checks : List Check) : OidcOut :=
  { result := result, requestedTokens := requested, allocated := allocated,
    destroyed := allocated.filter (fun b => b == 0), checksUsed := checks }

/-- Tail of `OidcAuth` from `pktoken.New` on (src/client/client.go lines
293-309): build the PK Token from the current `idToken` bytes, add the
JKT header, verify with the accumulated checks, return the token. -/
def finishAuth (env : OidcEnv) (idt : Jwt) (cicToken : CicJws)
    (opKey : PubKey) (allocated : List Nat) (checks : List Check) : OidcOut :=
  match pktokenNew idt cicToken with
  | Except.error e =>
    mkOut (Except.error ("error creating PK Token: " ++ e)) true allocated checks
  | Except.ok pkt =>
    match env.addJKT opKey with
    | Except.error e =>
      mkOut (Except.error ("error adding JKT header: " ++ e)) true allocated checks
    | Except.ok thumb =>
      let pkt2 := { pkt with jkt := some thumb }
      match env.verify pkt2 checks with
      | Except.error e =>
        mkOut (Except.error ("error verifying PK Token: " ++ e)) true allocated checks
      | Except.ok _ => mkOut (Except.ok pkt2) true allocated checks

/-- Embedding of `OidcAuth` (src/client/client.go lines 208-310). Buffer
0 is allocated when `RequestTokens` succeeds; in the GQ branch buffer 1
is allocated by `memguard.NewBufferFromBytes(gqToken)` and the `idToken`
variable is rebound to it, after which the GQOnly check is appended to
`verifierChecks`. -/
def OidcAuth (env : OidcEnv) (signGQ : Bool) : OidcOut :=
  match env.publicKeyOf with
  | Except.error e => mkOut (Except.error e) false [] []
  | Except.ok _ =>
  match env.setAlg with
  | Except.error e => mkOut (Except.error e) false [] []
  | Except.ok _ =>
  match env.newClaims with
  | Except.error e =>
    mkOut (Except.error ("failed to instantiate client instance claims: " ++ e)) false [] []
  | Except.ok cic =>
  match cic.hashResult with
  | Except.error e => mkOut (Except.error ("error getting nonce: " ++ e)) false [] []
  | Except.ok commitment =>
  match env.requestTokens commitment with
  | Except.error e =>
    mkOut (Except.error ("error requesting ID Token: " ++ e)) true [] []
  | Except.ok idt0 =>
  match env.cicSign idt0 with
  | Except.error e =>
    mkOut (Except.error ("error creating cic token: " ++ e)) true [0] []
  | Except.ok cicToken =>
  match env.jwsParse idt0 with
  | Except.error e =>
    mkOut (Except.error ("malformatted ID token: " ++ e)) true [0] []
  | Except.ok _ =>
  match unmarshalIss idt0.payload with
  | Except.error e => mkOut (Except.error e) true [0] []
  | Except.ok issuer =>
  match env.discoverKey idt0.kid issuer with
  | Except.error e =>
    mkOut (Except.error ("error getting OP public key: " ++ e)) true [0] []
  | Except.ok opKey =>
    if signGQ then
      match opKey with
      | PubKey.nonRsa _ =>
        mkOut (Except.error "failed to decode public key") true [0] []
      | PubKey.rsa n e =>
        match env.gqNewSV with
        | Except.error e2 =>
          mkOut (Except.error ("error creating GQ signer: " ++ e2)) true [0] []
        | Except.ok _ =>
        match env.gqSign idt0 with
        | Except.error e2 =>
          mkOut (Except.error ("error creating GQ signature: " ++ e2)) true [0] []
        | Except.ok proof =>
          finishAuth env (gqSignJWT proof idt0) cicToken (PubKey.rsa n e)
            [0, 1] [Check.gqOnly]
    else
      finishAuth env idt0 cicToken opKey [0] []

/-- Embedding of `Auth` (src/client/client.go lines 175-205):
`opIsBrowser` records whether the Go type assertion
`o.Op.(BrowserOpenIdProvider)` succeeds, and `cosReq` is the oracle for
`o.cosP.RequestToken`. The second component of the result records
whether `RequestTokens` was invoked. -/
def Auth (c : OpkClient) (env : OidcEnv) (opIsBrowser : Bool)
    (cosReq : PKToken → Except String PKToken) : Except String PKToken × Bool :=
  match c.cosP with
  | none =>
    let out := OidcAuth env c.signGQ
    (out.result, out.requestedTokens)
  | some _ =>
    if opIsBrowser then
      let out := OidcAuth env c.signGQ
      match out.result with
      | Except.error e => (Except.error e, out.requestedTokens)
      | Except.ok pkt => (cosReq pkt, out.requestedTokens)
    else
      (Except.error "OP supplied does not have support for MFA Cosigner", false)

/-! Concrete instances used as failing inputs and witnesses. -/

/-- A sample OP: Google-like issuer with the `nonce` commitment claim. -/
def opEx : OpInfo := { issuer := "https://op.example", commitmentClaim := "nonce" }

/-- A `util.GenKeyPair` oracle that always succeeds. -/
def genEx : String → Except String Nat := fun _ => Except.ok 7

/-- A sample cosigner provider. -/
def cosPEx : CosignerProvider := { issuer := "https://cos.example" }

/-- A sample compacted OP token whose payload carries the expected issuer. -/
def idtEx : Idt :=
  { id := 0,
    payload := [("iss", Json.str "https://op.example"), ("sub", Json.str "u1")] }

/-- A PK Token whose OP protected header carries `alg = ES256`, with all
remaining verification oracles succeeding. -/
def pktBadAlg : PKTokenM :=
  { getCicValues := Except.ok { hashResult := Except.ok "commitment0" },
    compactOp := Except.ok idtEx,
    providerAlgorithm := some "ES256",
    verifyGQSig := fun _ _ => Except.error "unused",
    verifyCicSig := Except.ok (),
    hasCos := false,
    verifyCosignerSignature := Except.ok () }

/-- A provider for the expected issuer whose key and signature oracles are
never consulted. -/
def providerEx : ProviderM :=
  { issuer := "https://op.example",
    publicKey := fun _ => Except.error "unused",
    verifyCICHash := fun _ _ => Except.error "unused",
    verifyNonGQSig := fun _ _ => Except.error "unused" }

/-- A provider expecting a different issuer than `idtEx` carries. -/
def providerOther : ProviderM :=
  { issuer := "https://other.example",
    publicKey := fun _ => Except.error "unused",
    verifyCICHash := fun _ _ => Except.error "unused",
    verifyNonGQSig := fun _ _ => Except.error "unused" }

/-- Library oracles for `VerifyPKToken` that are never consulted. -/
def verifyEnvEx : VerifyEnv :=
  { origJWTHeaders := fun _ => Except.error "unused",
    parseHeadersSegment := fun _ => Except.error "unused" }

/-- A GQ PK Token with every verification oracle succeeding. -/
def pktGq : PKTokenM :=
  { getCicValues := Except.ok { hashResult := Except.ok "commitment0" },
    compactOp := Except.ok idtEx,
    providerAlgorithm := some "GQ256",
    verifyGQSig := fun _ _ => Except.ok (),
    verifyCicSig := Except.ok (),
    hasCos := false,
    verifyCosignerSignature := Except.ok () }

/-- Original headers recovered from the GQ signature blob of `pktGq`. -/
def origHeadersEx : OrigHeaders := { alg := "RS256", kid := "k0" }

/-- A provider serving an RSA key and accepting the CIC hash. -/
def providerGq : ProviderM :=
  { issuer := "https://op.example",
    publicKey := fun _ => Except.ok (PubKey.rsa 77 65537),
    verifyCICHash := fun _ _ => Except.ok (),
    verifyNonGQSig := fun _ _ => Except.error "unused" }

/-- Library oracles recovering `origHeadersEx` from the signature blob. -/
def verifyEnvGq : VerifyEnv :=
  { origJWTHeaders := fun _ => Except.ok 5,
    parseHeadersSegment := fun _ => Except.ok origHeadersEx }

/-- A JWKS entry holding an RSA key under kid `k1`. -/
def jwkEx : Jwk := { kid := "k1", alg := "RS256", rawRsa := some (77, 65537) }

/-- Discovery oracles serving a JWKS with the single key `jwkEx`. -/
def discEnvEx : DiscoverEnv :=
  { discover := fun _ => Except.ok { jwksURI := "https://op.example/jwks" },
    fetchJwks := fun _ => Except.ok [jwkEx] }

/-- Headers naming the key id present in `discEnvEx`. -/
def headersK1 : OrigHeaders := { alg := "RS256", kid := "k1" }

/-- Headers naming a key id absent from `discEnvEx`. -/
def headersK2 : OrigHeaders := { alg := "RS256", kid := "k2" }

/-- The ID token payload used in the `OidcAuth` runs. -/
def payloadEx : List (String × Json) :=
  [("iss", Json.str "https://op.example"), ("sub", Json.str "u1"),
    ("nonce", Json.str "commitment0")]

/-- The RS256 ID token the OP returns in the `OidcAuth` runs. -/
def jwtEx : Jwt :=
  { alg := "RS256", kid := "k1", payload := payloadEx, sig := SigVal.rsa 123 }

/-- The CIC compact JWS produced over the same payload. -/
def cicJwsEx : CicJws := { hdrId := 1, payload := payloadEx, sig := 2 }

/-- An `OidcAuth` environment in which every library call succeeds. -/
def oidcEnvEx : OidcEnv :=
  { publicKeyOf := Except.ok (),
    setAlg := Except.ok (),
    newClaims := Except.ok { hashResult := Except.ok "commitment0" },
    requestTokens := fun _ => Except.ok jwtEx,
    cicSign := fun _ => Except.ok cicJwsEx,
    jwsParse := fun _ => Except.ok (),
    discoverKey := fun _ _ => Except.ok (PubKey.rsa 77 65537),
    gqNewSV := Except.ok (),
    gqSign := fun _ => Except.ok 99,
    addJKT := fun _ => Except.ok 3,
    verify := fun _ _ => Except.ok () }

/-- The PK Token the successful GQ run of `OidcAuth` returns. -/
def pktFromGqRun : PKToken :=
  { opAlg := "GQ256", opKid := "k1", payload := payloadEx,
    opSig := SigVal.gq "RS256" "k1" 99, cicHdrId := 1, cicSig := 2,
    jkt := some 3 }

/-! Theorems. -/

/-- The verifier `setVerifierAndReturn` leaves in the client is always
the provider-only verifier, whatever the client state was. -/
theorem setVerifierAndReturn_verifier (op : OpInfo) (c : OpkClient) :
    (setVerifierAndReturn op c).verifier
      = some (Verifier.providerOnly op.issuer op.commitmentClaim) := by
  rcases hc : c.cosP with _ | cp <;> simp [setVerifierAndReturn, hc]

/-- C1: the spec mandates that a client built with a cosigner provider
retain the cosigner-aware verifier. The code instead reassigns
`client.verifier = verifier.New(providerVerifier)` unconditionally
(src/client/client.go line 145) after the cosigner-aware assignment, so
the constructed client holds the provider-only verifier. -/
theorem new_cosigner_verifier_overwritten :
    (New opEx genEx [ClientOpt.withCosignerProvider (some cosPEx)]).map OpkClient.verifier
      = Except.ok (some (Verifier.providerOnly "https://op.example" "nonce"))
    ∧ Verifier.providerOnly "https://op.example" "nonce"
      ≠ Verifier.withCosigner "https://op.example" "nonce" "https://cos.example" :=
  ⟨rfl, by decide⟩

/-- C10: every client `New` returns holds the freshly built provider-only
verifier, assigned as the last step of construction; in particular no
verifier supplied through `WithCustomVerifier` survives. -/
theorem new_verifier_always_provider_only (op : OpInfo)
    (gen : String → Except String Nat) (opts : List ClientOpt) (c : OpkClient)
    (h : New op gen opts = Except.ok c) :
    c.verifier = some (Verifier.providerOnly op.issuer op.commitmentClaim)
    ∧ ∀ id : Nat, c.verifier ≠ some (Verifier.custom id) := by
  simp only [New] at h
  split at h
  · cases h
  · split at h
    · injection h with h2
      subst h2
      refine ⟨setVerifierAndReturn_verifier op _, ?_⟩
      intro id
      rw [setVerifierAndReturn_verifier op _]
      simp
    · split at h
      · cases h
      · injection h with h2
        subst h2
        refine ⟨setVerifierAndReturn_verifier op _, ?_⟩
        intro id
        rw [setVerifierAndReturn_verifier op _]
        simp

/-- C10 witness: the client built with no options holds the provider-only
verifier for the configured OP. -/
theorem new_verifier_always_provider_only_witness :
    OpkClient.verifier
        { op := opEx, cosP := none, signer := some 7, alg := some "ES256",
          signGQ := false,
          verifier := some (Verifier.providerOnly "https://op.example" "nonce") }
      = some (Verifier.providerOnly "https://op.example" "nonce") :=
  (new_verifier_always_provider_only opEx genEx [] _ rfl).1

/-- C2: a PK Token whose OP protected header `alg` is ES256 (neither
RS256 nor GQ256) is accepted by `VerifyPKToken`: the Go `switch` has no
default clause, so OP signature verification is silently skipped and the
function returns nil when the CIC check passes. The claim (and spec)
say such a token must be rejected with `UnsupportedAlgorithm`. -/
theorem verifyPKToken_accepts_unknown_alg :
    pktBadAlg.providerAlgorithm = some "ES256"
    ∧ VerifyPKToken verifyEnvEx pktBadAlg providerEx = Except.ok () :=
  ⟨rfl, rfl⟩

/-- C5: when a cosigner provider is configured and the OP does not
implement `BrowserOpenIdProvider`, `Auth` returns an error and never
calls `RequestTokens` (the second component of the result). -/
theorem auth_cosigner_requires_browser_op (c : OpkClient)
    (cp : CosignerProvider) (env : OidcEnv)
    (cosReq : PKToken → Except String PKToken) :
    Auth { c with cosP := some cp } env false cosReq
      = (Except.error "OP supplied does not have support for MFA Cosigner", false) :=
  rfl

/-- Folding the `aud`-array loop over a list of string elements collects
exactly those strings. -/
theorem audAppendStep_foldl (l : List String) (acc : List String) :
    List.foldl audAppendStep (Except.ok acc) (List.map Json.str l)
      = Except.ok (acc ++ l) := by
  induction l generalizing acc with
  | nil => simp
  | cons x xs ih => simp [audAppendStep, ih]

/-- C4 counterexample: `ExtractClaim` does not accept an `aud` claim that
is a JSON array of strings; it fails with the non-string-claim error
instead of returning the comma-joined value. -/
theorem extractClaim_rejects_aud_array :
    ExtractClaim [("aud", Json.arr [Json.str "a", Json.str "b"])] "aud"
      = Except.error "expected claim aud to be a string" :=
  rfl

/-- C4 amended: `ExtractClaim` returns the claim value as a string and
fails when the claim is missing or not a string, with no exception for
`aud`; the string-or-array-of-strings handling of `aud` (joined by
commas) lives in `OidcClaims.UnmarshalJSON` instead. -/
theorem extractClaim_no_aud_special_case (payload : List (String × Json))
    (name : String) :
    (lookupClaim payload name = none →
      ExtractClaim payload name
        = Except.error ("claim " ++ name ++ " missing from payload"))
    ∧ (∀ s, lookupClaim payload name = some (Json.str s) →
        ExtractClaim payload name = Except.ok s)
    ∧ (∀ j, lookupClaim payload name = some j → (∀ s, j ≠ Json.str s) →
        ExtractClaim payload name
          = Except.error ("expected claim " ++ name ++ " to be a string"))
    ∧ (∀ s, oidcUnmarshalAudience (some (Json.str s)) = Except.ok s)
    ∧ (∀ l, oidcUnmarshalAudience (some (Json.arr (List.map Json.str l)))
        = Except.ok (String.intercalate "," l)) := by
  refine ⟨?_, ?_, ?_, ?_, ?_⟩
  · intro h
    simp [ExtractClaim, h]
  · intro s h
    simp [ExtractClaim, h]
  · intro j h hne
    cases j
    case str s => exact absurd rfl (hne s)
    all_goals simp [ExtractClaim, h]
  · intro s
    rfl
  · intro l
    simp [oidcUnmarshalAudience, audAppendStep_foldl, Except.map]

/-- C4 witness: a string claim is extracted, and the `aud` array handling
of `OidcClaims.UnmarshalJSON` joins with commas. -/
theorem extractClaim_no_aud_special_case_witness :
    ExtractClaim [("aud", Json.str "x")] "aud" = Except.ok "x"
    ∧ oidcUnmarshalAudience (some (Json.arr [Json.str "a", Json.str "b"]))
        = Except.ok "a,b" := by
  constructor
  · exact (extractClaim_no_aud_special_case [("aud", Json.str "x")] "aud").2.1 "x" rfl
  · exact (extractClaim_no_aud_special_case [] "aud").2.2.2.2 ["a", "b"]

/-- C7: when the `iss` claim extracted from the PK Token payload differs
from `provider.Issuer()`, `VerifyPKToken` never accepts the token. -/
theorem verifyPKToken_issuer_mismatch_rejected (env : VerifyEnv)
    (pkt : PKTokenM) (provider : ProviderM) (idt : Idt) (issuer : String)
    (hc : pkt.compactOp = Except.ok idt)
    (hi : ExtractClaim idt.payload "iss" = Except.ok issuer)
    (hne : issuer ≠ provider.issuer) :
    VerifyPKToken env pkt provider ≠ Except.ok () := by
  unfold VerifyPKToken
  rcases h1 : pkt.getCicValues with e1 | cic
  · simp only [h1]
    simp
  · simp only [h1]
    rcases h2 : cic.hashResult with e2 | commitment
    · simp only [h2]
      simp
    · simp only [h2, hc, hi]
      simp [hne]

/-- C7 witness: the token carrying issuer `https://op.example` is
rejected by the provider expecting `https://other.example`. -/
theorem verifyPKToken_issuer_mismatch_rejected_witness :
    VerifyPKToken verifyEnvEx pktBadAlg providerOther ≠ Except.ok () :=
  verifyPKToken_issuer_mismatch_rejected verifyEnvEx pktBadAlg providerOther
    idtEx "https://op.example" rfl rfl (by decide)

/-- C8: given a successful discovery and JWKS fetch, `DiscoverPublicKey`
fails when the kid is not in the JWKS, fails when the JWK found for the
kid does not carry algorithm RS256, and otherwise returns the RSA public
key decoded from that JWK. -/
theorem discoverPublicKey_kid_and_alg (env : DiscoverEnv)
    (headers : OrigHeaders) (issuer : String) (conf : DiscConf)
    (jwks : List Jwk)
    (hd : env.discover issuer = Except.ok conf)
    (hf : env.fetchJwks conf.jwksURI = Except.ok jwks) :
    (lookupKeyID jwks headers.kid = none →
      DiscoverPublicKey env headers issuer
        = Except.error ("key " ++ headers.kid ++ " is not in JWKS"))
    ∧ (∀ key, lookupKeyID jwks headers.kid = some key → key.alg ≠ "RS256" →
        DiscoverPublicKey env headers issuer
          = Except.error ("expected alg to be RS256 in JWK with kid "
              ++ headers.kid ++ " for OP " ++ issuer ++ ", got " ++ key.alg))
    ∧ (∀ key n e, lookupKeyID jwks headers.kid = some key →
        key.alg = "RS256" → key.rawRsa = some (n, e) →
        DiscoverPublicKey env headers issuer = Except.ok (PubKey.rsa n e)) := by
  refine ⟨?_, ?_, ?_⟩
  · intro hl
    simp [DiscoverPublicKey, hd, hf, hl]
  · intro key hl halg
    simp [DiscoverPublicKey, hd, hf, hl, halg]
  · intro key n e hl halg hraw
    simp [DiscoverPublicKey, hd, hf, hl, halg, hraw]

/-- C8 witness: the key under kid `k1` is returned, and the lookup of the
absent kid `k2` fails. -/
theorem discoverPublicKey_kid_and_alg_witness :
    DiscoverPublicKey discEnvEx headersK1 "https://op.example"
      = Except.ok (PubKey.rsa 77 65537)
    ∧ DiscoverPublicKey discEnvEx headersK2 "https://op.example"
      = Except.error "key k2 is not in JWKS" := by
  constructor
  · exact (discoverPublicKey_kid_and_alg discEnvEx headersK1 "https://op.example"
      { jwksURI := "https://op.example/jwks" } [jwkEx] rfl rfl).2.2
      jwkEx 77 65537 rfl rfl rfl
  · exact (discoverPublicKey_kid_and_alg discEnvEx headersK2 "https://op.example"
      { jwksURI := "https://op.example/jwks" } [jwkEx] rfl rfl).1 rfl

/-- Inversion of the GQ256 arm of the switch: success requires recovering
the original headers, their algorithm being RS256, an RSA provider key,
a valid GQ proof and a matching CIC hash commitment. -/
theorem verifyOpSignature_gq_ok (env : VerifyEnv) (pkt : PKTokenM)
    (provider : ProviderM) (idt : Idt) (commitment : String)
    (h : verifyOpSignature env pkt provider idt commitment "GQ256" = Except.ok ()) :
    ∃ seg origHeaders n e,
      env.origJWTHeaders idt = Except.ok seg
      ∧ env.parseHeadersSegment seg = Except.ok origHeaders
      ∧ origHeaders.alg = "RS256"
      ∧ provider.publicKey origHeaders = Except.ok (PubKey.rsa n e)
      ∧ pkt.verifyGQSig n e = Except.ok ()
      ∧ provider.verifyCICHash idt commitment = Except.ok () := by
  unfold verifyOpSignature at h
  rw [if_pos rfl] at h
  rcases h1 : env.origJWTHeaders idt with e1 | seg
  · simp [h1] at h
  · simp only [h1] at h
    rcases h2 : env.parseHeadersSegment seg with e2 | origHeaders
    · simp [h2] at h
    · simp only [h2] at h
      by_cases h3 : origHeaders.alg = "RS256"
      · rw [if_neg (by simp [h3])] at h
        rcases h4 : provider.publicKey origHeaders with e4 | pk
        · simp [h4] at h
        · simp only [h4] at h
          cases pk with
          | nonRsa t => simp at h
          | rsa n e =>
            rcases h5 : pkt.verifyGQSig n e with e5 | u5
            · simp [h5] at h
            · simp only [h5] at h
              rcases h6 : provider.verifyCICHash idt commitment with e6 | u6
              · simp [h6] at h
              · cases u5
                cases u6
                refine ⟨seg, origHeaders, n, e, ?_, ?_, ?_, ?_, ?_, ?_⟩ <;> simp_all
      · rw [if_pos h3] at h
        cases h

/-- C6: whenever `VerifyPKToken` accepts a token whose OP header `alg` is
GQ256, the original JWT header was recovered from the signature blob, its
`alg` was RS256, the provider returned an RSA public key for it, the GQ
proof verified under that key, and the commitment claim matched the CIC
hash; equivalently, failure of any of these steps makes `VerifyPKToken`
return an error. -/
theorem verifyPKToken_gq_pipeline (env : VerifyEnv) (pkt : PKTokenM)
    (provider : ProviderM)
    (halg : pkt.providerAlgorithm = some "GQ256")
    (hok : VerifyPKToken env pkt provider = Except.ok ()) :
    ∃ cic commitment idt seg origHeaders n e,
      pkt.getCicValues = Except.ok cic
      ∧ cic.hashResult = Except.ok commitment
      ∧ pkt.compactOp = Except.ok idt
      ∧ env.origJWTHeaders idt = Except.ok seg
      ∧ env.parseHeadersSegment seg = Except.ok origHeaders
      ∧ origHeaders.alg = "RS256"
      ∧ provider.publicKey origHeaders = Except.ok (PubKey.rsa n e)
      ∧ pkt.verifyGQSig n e = Except.ok ()
      ∧ provider.verifyCICHash idt commitment = Except.ok () := by
  unfold VerifyPKToken at hok
  rcases h1 : pkt.getCicValues with e1 | cic
  · simp [h1] at hok
  · simp only [h1] at hok
    rcases h2 : cic.hashResult with e2 | commitment
    · simp [h2] at hok
    · simp only [h2] at hok
      rcases h3 : pkt.compactOp with e3 | idt
      · simp [h3] at hok
      · simp only [h3] at hok
        rcases h4 : ExtractClaim idt.payload "iss" with e4 | issuer
        · simp [h4] at hok
        · simp only [h4] at hok
          split at hok
          · cases hok
          · rw [halg] at hok
            rcases h5 : verifyOpSignature env pkt provider idt commitment "GQ256"
              with e5 | u5
            · simp [h5] at hok
            · obtain ⟨seg, origHeaders, n, e, hh1, hh2, hh3, hh4, hh5, hh6⟩ :=
                verifyOpSignature_gq_ok env pkt provider idt commitment h5
              refine ⟨cic, commitment, idt, seg, origHeaders, n, e,
                ?_, ?_, ?_, ?_, ?_, ?_, ?_, ?_, ?_⟩ <;> simp_all

/-- C6 witness: a GQ PK Token on which every step succeeds is accepted,
and the pipeline facts hold at that input. -/
theorem verifyPKToken_gq_pipeline_witness :
    pktGq.providerAlgorithm = some "GQ256"
    ∧ VerifyPKToken verifyEnvGq pktGq providerGq = Except.ok ()
    ∧ ∃ cic commitment idt seg origHeaders n e,
        pktGq.getCicValues = Except.ok cic
        ∧ cic.hashResult = Except.ok commitment
        ∧ pktGq.compactOp = Except.ok idt
        ∧ verifyEnvGq.origJWTHeaders idt = Except.ok seg
        ∧ verifyEnvGq.parseHeadersSegment seg = Except.ok origHeaders
        ∧ origHeaders.alg = "RS256"
        ∧ providerGq.publicKey origHeaders = Except.ok (PubKey.rsa n e)
        ∧ pktGq.verifyGQSig n e = Except.ok ()
        ∧ providerGq.verifyCICHash idt commitment = Except.ok () :=
  ⟨rfl, rfl, verifyPKToken_gq_pipeline verifyEnvGq pktGq providerGq rfl rfl⟩

/-- C3: on the successful `signGQ = true` run of `OidcAuth` both buffers
are allocated (0 by `RequestTokens`, 1 by
`memguard.NewBufferFromBytes(gqToken)`), but only buffer 0 is destroyed
at exit: the deferred `idToken.Destroy()` captured the original buffer
before the `idToken` variable was rebound, so the GQ-transformed buffer
is never destroyed, contradicting the claim that every ID-token buffer
is destroyed on every exit path. -/
theorem oidcAuth_gq_buffer_not_destroyed :
    (OidcAuth oidcEnvEx true).result = Except.ok pktFromGqRun
    ∧ (OidcAuth oidcEnvEx true).allocated = [0, 1]
    ∧ (OidcAuth oidcEnvEx true).destroyed = [0] :=
  ⟨rfl, rfl, rfl⟩

/-- Inversion of a successful `pktokenNew`: the stored OP header and
signature are the ones of the ID token handed in, and `jkt` starts out
unset. -/
theorem pktokenNew_ok_inv (idt : Jwt) (cicToken : CicJws) (pkt : PKToken)
    (h : pktokenNew idt cicToken = Except.ok pkt) :
    pkt.opAlg = idt.alg ∧ pkt.opSig = idt.sig ∧ pkt.jkt = none := by
  unfold pktokenNew at h
  split at h
  · injection h with h2
    subst h2
    exact ⟨rfl, rfl, rfl⟩
  · cases h

/-- Inversion of a successful tail of `OidcAuth`: the returned PK Token
keeps the OP header and signature of the ID token handed to
`pktoken.New`, the checks at exit are the accumulated ones, and the
verifier accepted the returned token with exactly those checks. -/
theorem finishAuth_ok_inv (env : OidcEnv) (idt : Jwt) (cicToken : CicJws)
    (opKey : PubKey) (allocated : List Nat) (checks : List Check)
    (pkt : PKToken)
    (h : (finishAuth env idt cicToken opKey allocated checks).result
      = Except.ok pkt) :
    pkt.opAlg = idt.alg ∧ pkt.opSig = idt.sig
    ∧ (finishAuth env idt cicToken opKey allocated checks).checksUsed = checks
    ∧ env.verify pkt checks = Except.ok () := by
  unfold finishAuth at h ⊢
  rcases hN : pktokenNew idt cicToken with eN | pkt0
  · simp [hN, mkOut] at h
  · simp only [hN] at h ⊢
    rcases hJ : env.addJKT opKey with eJ | thumb
    · simp [hJ, mkOut] at h
    · simp only [hJ] at h ⊢
      rcases hV : env.verify { pkt0 with jkt := some thumb } checks with eV | u
      · simp [hV, mkOut] at h
      · simp only [hV] at h ⊢
        simp only [mkOut] at h
        rw [Except.ok.injEq] at h
        subst h
        obtain ⟨ha, hs, _⟩ := pktokenNew_ok_inv idt cicToken pkt0 hN
        cases u
        exact ⟨ha, hs, rfl, hV⟩

/-- A successful run of `OidcAuth` with `signGQ = true` went through the
GQ branch: the run equals the tail computation on the GQ-transformed ID
token with the GQOnly check accumulated and both buffers allocated. -/
theorem oidcAuth_gq_success_shape (env : OidcEnv) (pkt : PKToken)
    (hok : (OidcAuth env true).result = Except.ok pkt) :
    ∃ idt0 cicToken n e proof,
      OidcAuth env true
        = finishAuth env (gqSignJWT proof idt0) cicToken (PubKey.rsa n e)
            [0, 1] [Check.gqOnly] := by
  unfold OidcAuth at hok ⊢
  rcases h1 : env.publicKeyOf with e1 | u1
  · simp [h1, mkOut] at hok
  · simp only [h1] at hok ⊢
    rcases h2 : env.setAlg with e2 | u2
    · simp [h2, mkOut] at hok
    · simp only [h2] at hok ⊢
      rcases h3 : env.newClaims with e3 | cic
      · simp [h3, mkOut] at hok
      · simp only [h3] at hok ⊢
        rcases h4 : cic.hashResult with e4 | commitment
        · simp [h4, mkOut] at hok
        · simp only [h4] at hok ⊢
          rcases h5 : env.requestTokens commitment with e5 | idt0
          · simp [h5, mkOut] at hok
          · simp only [h5] at hok ⊢
            rcases h6 : env.cicSign idt0 with e6 | cicToken
            · simp [h6, mkOut] at hok
            · simp only [h6] at hok ⊢
              rcases h7 : env.jwsParse idt0 with e7 | u7
              · simp [h7, mkOut] at hok
              · simp only [h7] at hok ⊢
                rcases h8 : unmarshalIss idt0.payload with e8 | issuer
                · simp [h8, mkOut] at hok
                · simp only [h8] at hok ⊢
                  rcases h9 : env.discoverKey idt0.kid issuer with e9 | opKey
                  · simp [h9, mkOut] at hok
                  · simp only [h9, if_true] at hok ⊢
                    cases opKey with
                    | nonRsa t => simp [mkOut] at hok
                    | rsa n e =>
                      rcases h10 : env.gqNewSV with e10 | u10
                      · simp [h10, mkOut] at hok
                      · simp only [h10] at hok ⊢
                        rcases h11 : env.gqSign idt0 with e11 | proof
                        · simp [h11, mkOut] at hok
                        · simp only [h11] at hok ⊢
                          exact ⟨idt0, cicToken, n, e, proof, rfl⟩

/-- C9: whenever `OidcAuth` with `signGQ = true` succeeds, the returned
PK Token was built from the GQ-transformed JWT: its OP protected header
`alg` is GQ256, its OP signature is not raw RSA signature bytes, the
GQOnly check was part of the checks handed to the verification performed
before returning, and that verification accepted the returned token. -/
theorem oidcAuth_gq_success_properties (env : OidcEnv) (pkt : PKToken)
    (hok : (OidcAuth env true).result = Except.ok pkt) :
    pkt.opAlg = "GQ256"
    ∧ (∀ b, pkt.opSig ≠ SigVal.rsa b)
    ∧ (OidcAuth env true).checksUsed = [Check.gqOnly]
    ∧ env.verify pkt [Check.gqOnly] = Except.ok () := by
  obtain ⟨idt0, cicToken, n, e, proof, hshape⟩ :=
    oidcAuth_gq_success_shape env pkt hok
  rw [hshape] at hok
  obtain ⟨ha, hs, hc, hv⟩ := finishAuth_ok_inv env (gqSignJWT proof idt0)
    cicToken (PubKey.rsa n e) [0, 1] [Check.gqOnly] pkt hok
  refine ⟨?_, ?_, ?_, hv⟩
  · rw [ha]
    rfl
  · intro b
    rw [hs]
    simp [gqSignJWT]
  · rw [hshape]
    exact hc

/-- C9 witness: the successful GQ run of `OidcAuth` returns a token with
OP `alg` GQ256 and the GQOnly check among the checks used. -/
theorem oidcAuth_gq_success_properties_witness :
    pktFromGqRun.opAlg = "GQ256"
    ∧ (OidcAuth oidcEnvEx true).checksUsed = [Check.gqOnly]
    ∧ oidcEnvEx.verify pktFromGqRun [Check.gqOnly] = Except.ok () := by
  have h := oidcAuth_gq_success_properties oidcEnvEx pktFromGqRun rfl
  exact ⟨h.1, h.2.2.1, h.2.2.2⟩

end OpenPubkey
